import Mathlib

/-!
Verification of the TalentLens interview-platform core: score resolution
(`InterviewSession.calculate_overall_score`), the progress/teacher aggregators
(`DashboardAnalyticsService`), the cascade-delete guard and the progress
recompute signal handlers (`apps/interviews/signals.py`), and the
security-event endpoints (`report_security_event`, `security_event`).

Times are modelled as integers (seconds), database numeric columns as `Int`,
and Python float arithmetic as exact rational arithmetic over `ℚ`.
`None`-able columns are `Option` fields, and a Python function that can raise
is modelled with `Option`/`Except`.
-/

namespace TalentLens

/-- Session status, the `STATUS_CHOICES` of `InterviewSession`. -/
inductive Status where
  | scheduled
  | in_progress
  | completed
  | missed
  | cancelled
  | terminated
deriving DecidableEq, Repr

/-- Interview type, the `INTERVIEW_TYPES` of `InterviewSession`. -/
inductive IType where
  | technical
  | communication
  | aptitude
deriving DecidableEq, Repr

/-- Score trend stored on `StudentProgress.score_trend`. -/
inductive Trend where
  | improving
  | declining
  | stable
deriving DecidableEq, Repr

/-- Security event type reported by the frontend (`event_type` strings of the
two security endpoints). `other` stands for any string outside the ones the
code inspects. -/
inductive EventType where
  | tab_switch
  | warning
  | window_blur
  | dev_tools
  | copy_attempt
  | paste_attempt
  | other
deriving DecidableEq, Repr

/-- A recorded security event: the fields of the JSON objects appended to
`security_violations` and to `security_metadata['events']` that the code later
inspects (event type and timestamp; `event_data` is never read back). -/
structure SecEvent where
  etype : EventType
  time : ℤ
deriving DecidableEq, Repr

/-- `InterviewResponse`: the one field the modelled functions read is the
nullable integer `score`. -/
structure InterviewResponse where
  score : Option ℤ
deriving DecidableEq, Repr

/-- `InterviewQuestion` with its optional 1:1 `response` (reverse accessor of
`InterviewResponse.question`); `response = none` models a question with no
`InterviewResponse` row. -/
structure Question where
  response : Option InterviewResponse
deriving DecidableEq, Repr

/-- `InterviewFeedback`: `overall_score` is a non-null integer column; the
three skill scores are nullable integer columns. -/
structure Feedback where
  overall_score : ℤ
  technical_score : Option ℤ
  communication_score : Option ℤ
  problem_solving_score : Option ℤ
deriving DecidableEq, Repr

/-- `InterviewSession` restricted to the columns the modelled functions read
or write. `feedback = none` models the `self.feedback` accessor raising
`DoesNotExist`; `questions` are the session's owned questions;
`tab_switch_limit`/`warning_limit` model the optional keys of the
`security_config` JSON field (absent key ⇒ default applies). -/
structure Session where
  student : ℕ
  teacher : ℕ
  interview_type : IType
  status : Status
  scheduled_datetime : ℤ
  end_datetime : ℤ
  created_at : ℤ
  completed_at : Option ℤ
  questions : List Question
  feedback : Option Feedback
  tab_switches : ℤ
  warning_count : ℤ
  is_session_valid : Bool
  tab_switch_limit : Option ℤ
  warning_limit : Option ℤ
  security_violations : List SecEvent
  security_metadata_events : List SecEvent
deriving DecidableEq, Repr

/-- Python's `round` to 0 decimals: round half to even (banker's rounding),
on exact rationals. -/
def roundHalfEven (q : ℚ) : ℤ :=
  if q - (⌊q⌋ : ℚ) < 1/2 then ⌊q⌋
  else if 1/2 < q - (⌊q⌋ : ℚ) then ⌊q⌋ + 1
  else if ⌊q⌋ % 2 = 0 then ⌊q⌋ else ⌊q⌋ + 1

/-- Python's `round(x, 2)`. -/
def pythonRound2 (q : ℚ) : ℚ := (roundHalfEven (q * 100) : ℚ) / 100

/-- `InterviewSession.calculate_overall_score` (models.py): return the
attached feedback's `overall_score` when feedback exists; otherwise average
`response.score or 0` over the questions that have a response, rounded to two
decimals, returning `0` when no question has a response. -/
def calculate_overall_score (s : Session) : ℚ :=
  match s.feedback with
  | some fb => (fb.overall_score : ℚ)
  | none =>
    let answered := s.questions.filter (fun q => q.response.isSome)
    if answered.length = 0 then 0
    else
      let total : ℤ := (answered.map (fun q =>
        (q.response.map (fun r => r.score.getD 0)).getD 0)).sum
      pythonRound2 ((total : ℚ) / (answered.length : ℚ))

/-- The score-resolution rule written from the spec's words (§4.2 and claim
C1): Feedback score when attached; else `0` when no Question has a Response;
else the mean of the Responses' scores with a null score counted as 0,
rounded to 2 decimal places, with the number of Questions that have a
Response as denominator. -/
def resolve_spec (s : Session) : ℚ :=
  match s.feedback with
  | some fb => (fb.overall_score : ℚ)
  | none =>
    let scores : List ℤ :=
      (s.questions.filterMap (fun q => q.response)).map (fun r => r.score.getD 0)
    if scores = [] then 0
    else pythonRound2 ((scores.sum : ℚ) / (scores.length : ℚ))

/-- A baseline session used as the starting point of the concrete inputs in
this file: completed, no questions, no feedback, clean security counters. -/
def baseSession : Session where
  student := 1
  teacher := 2
  interview_type := .technical
  status := .completed
  scheduled_datetime := 0
  end_datetime := 3600
  created_at := 0
  completed_at := some 3600
  questions := []
  feedback := none
  tab_switches := 0
  warning_count := 0
  is_session_valid := true
  tab_switch_limit := none
  warning_limit := none
  security_violations := []
  security_metadata_events := []

/-- A feedback row carrying only an overall score. -/
def fbOnly (sc : ℤ) : Feedback where
  overall_score := sc
  technical_score := none
  communication_score := none
  problem_solving_score := none

/-- `StudentProgress` row (dashboard/models.py). `calculated_at` is the
`auto_now` timestamp refreshed on every save. -/
structure StudentProgress where
  student : ℕ
  total_interviews : ℕ
  completed_interviews : ℕ
  average_score : ℚ
  technical_average : ℚ
  communication_average : ℚ
  aptitude_average : ℚ
  score_trend : Trend
  improvement_percentage : ℚ
  last_interview_date : Option ℤ
  streak_days : ℤ
  calculated_at : ℤ
deriving DecidableEq, Repr

/-- `TeacherStats` row (dashboard/models.py). `updated_at` is the `auto_now`
timestamp refreshed on every save. -/
structure TeacherStats where
  teacher : ℕ
  total_students : ℕ
  active_students : ℕ
  total_interviews_conducted : ℕ
  interviews_this_month : ℕ
  average_student_score : ℚ
  feedback_completion_rate : ℚ
  student_improvement_rate : ℚ
  last_activity_date : Option ℤ
  updated_at : ℤ
deriving DecidableEq, Repr

/-- `TeacherStudentMapping` (users app): one active/inactive assignment of a
student to a teacher. -/
structure Mapping where
  teacher : ℕ
  student : ℕ
  is_active : Bool
deriving DecidableEq, Repr

/-- The persisted state the modelled operations read and write: the user rows
(by id), the session rows (each owning its questions and optional feedback),
the materialized `StudentProgress` rows, the teacher-student assignments, and
the two ambient flags the cascade-delete guard inspects: the thread-local
`user_cascade_delete` flag and `connection.needs_rollback` (the code only
reads their conjunction-relevant values). -/
structure DB where
  users : List ℕ
  sessions : List Session
  progress : List StudentProgress
  mappings : List Mapping
  cascadeFlag : Bool
  needsRollback : Bool
deriving DecidableEq, Repr

/-- Insert `x` into a list already sorted by `key` descending, keeping the
descending order (models an SQL `ORDER BY key DESC`). -/
def insertDescBy {α : Type} (key : α → ℤ) (x : α) : List α → List α
  | [] => [x]
  | y :: ys => if key y ≤ key x then x :: y :: ys else y :: insertDescBy key x ys

/-- Sort a list by `key` descending (models an SQL `ORDER BY key DESC`). -/
def sortDescBy {α : Type} (key : α → ℤ) : List α → List α
  | [] => []
  | x :: xs => insertDescBy key x (sortDescBy key xs)

/-- `InterviewSession.objects.filter(student=student)`. -/
def studentSessions (db : DB) (sid : ℕ) : List Session :=
  db.sessions.filter (fun s => s.student == sid)

/-- The student's sessions with `status='completed'`. -/
def completedSessionsOf (db : DB) (sid : ℕ) : List Session :=
  (studentSessions db sid).filter (fun s => s.status == Status.completed)

/-- `InterviewFeedback.objects.filter(session__student=student,
session__status='completed')`: each feedback row paired with its session. -/
def studentFeedbacks (db : DB) (sid : ℕ) : List (Session × Feedback) :=
  (completedSessionsOf db sid).filterMap (fun s => s.feedback.map (fun f => (s, f)))

/-- Django `aggregate(avg=Avg(...))['avg'] or 0`: the mean of the listed
values, `0` when the list is empty (`Avg` over no rows is `NULL`). -/
def avgOrZero (xs : List ℤ) : ℚ :=
  if xs.length = 0 then 0 else (xs.sum : ℚ) / (xs.length : ℚ)

/-- Skill average: `Avg` of a nullable score column over the feedback rows
whose session has the given interview type; SQL `Avg` skips `NULL` values,
and an empty result yields 0 via `or 0`. -/
def skillAvg (fbs : List (Session × Feedback)) (t : IType) (proj : Feedback → Option ℤ) : ℚ :=
  avgOrZero ((fbs.filter (fun p => p.1.interview_type == t)).filterMap (fun p => proj p.2))

/-- `feedbacks.order_by('-session__completed_at')[:6].values_list('overall_score')`:
the six most recent overall scores, most recent first. A `NULL` completion
time sorts as the epoch. -/
def recentFeedbackScores (db : DB) (sid : ℕ) : List ℤ :=
  ((sortDescBy (fun p => p.1.completed_at.getD 0) (studentFeedbacks db sid)).map
    (fun p => p.2.overall_score)).take 6

/-- `recent_avg`: mean of the three most recent of the (at least six) scores. -/
def recentAvgOf (db : DB) (sid : ℕ) : ℚ :=
  (((recentFeedbackScores db sid).take 3).sum : ℚ) / 3

/-- `previous_avg`: mean of scores 4–6 (`valid_scores[3:6]`). -/
def previousAvgOf (db : DB) (sid : ℕ) : ℚ :=
  ((((recentFeedbackScores db sid).drop 3).take 3).sum : ℚ) / 3

/-- `DashboardAnalyticsService._update_student_progress` (dashboard/services.py):
recompute the progress row for `p.student` from the student's sessions and
feedback rows, returning the row as it is saved. Returns `none` exactly when
the Python code raises `ZeroDivisionError` (the improving/declining branches
divide by `previous_avg`); in that case nothing is saved. `now` models
`timezone.now()` stamped into the `auto_now` column on save. -/
def update_student_progress (db : DB) (p : StudentProgress) (now : ℤ) :
    Option StudentProgress :=
  let sid := p.student
  let interviews := studentSessions db sid
  let completedList := interviews.filter (fun s => s.status == Status.completed)
  let p1 := { p with total_interviews := interviews.length,
                     completed_interviews := completedList.length,
                     calculated_at := now }
  if completedList.length ≠ 0 then
    let fbs := studentFeedbacks db sid
    let p2 := if fbs.length ≠ 0 then
        { p1 with
          average_score := avgOrZero (fbs.map (fun q => q.2.overall_score)),
          technical_average := skillAvg fbs .technical (fun f => f.technical_score),
          communication_average := skillAvg fbs .communication (fun f => f.communication_score),
          aptitude_average := skillAvg fbs .aptitude (fun f => f.problem_solving_score) }
      else p1
    let p3 := match (sortDescBy (fun s => s.completed_at.getD 0) completedList).head? with
      | some last => { p2 with last_interview_date := last.completed_at }
      | none => p2
    if 6 ≤ (recentFeedbackScores db sid).length then
      let recentAvg := recentAvgOf db sid
      let previousAvg := previousAvgOf db sid
      if previousAvg * (105/100) < recentAvg then
        if previousAvg = 0 then none
        else some { p3 with score_trend := .improving,
                            improvement_percentage := (recentAvg - previousAvg) / previousAvg * 100 }
      else if recentAvg < previousAvg * (95/100) then
        if previousAvg = 0 then none
        else some { p3 with score_trend := .declining,
                            improvement_percentage := (recentAvg - previousAvg) / previousAvg * 100 }
      else some { p3 with score_trend := .stable, improvement_percentage := 0 }
    else some p3
  else
    some { p1 with average_score := 0, technical_average := 0, communication_average := 0,
                   aptitude_average := 0, score_trend := .stable,
                   improvement_percentage := 0, last_interview_date := none }

/-- The `StudentProgress` row produced by `get_or_create`/`objects.create`
defaults (explicit zero defaults in the call sites, model defaults for the
remaining columns, `auto_now` stamp for `calculated_at`). -/
def defaultStudentProgress (sid : ℕ) (now : ℤ) : StudentProgress where
  student := sid
  total_interviews := 0
  completed_interviews := 0
  average_score := 0
  technical_average := 0
  communication_average := 0
  aptitude_average := 0
  score_trend := .stable
  improvement_percentage := 0
  last_interview_date := none
  streak_days := 0
  calculated_at := now

/-- A completed session of student 1 with completion time `t` and an attached
feedback scoring `sc`. -/
def completedWithScore (t sc : ℤ) : Session :=
  { baseSession with completed_at := some t, feedback := some (fbOnly sc) }

/-- An otherwise-empty database holding the given sessions and progress rows
for student 1. -/
def dbWith (ss : List Session) (ps : List StudentProgress) : DB where
  users := [1]
  sessions := ss
  progress := ps
  mappings := []
  cascadeFlag := false
  needsRollback := false

/-- `InterviewSession.objects.filter(teacher=teacher)`. -/
def teacherSessions (db : DB) (tid : ℕ) : List Session :=
  db.sessions.filter (fun s => s.teacher == tid)

/-- The teacher's sessions with `status='completed'`. -/
def completedTeacherSessions (db : DB) (tid : ℕ) : List Session :=
  (teacherSessions db tid).filter (fun s => s.status == Status.completed)

/-- `DashboardAnalyticsService._update_teacher_stats` (dashboard/services.py):
recompute the teacher's stats row from assignments and sessions. The Python
code filters `score is not None` out of the per-session resolved scores;
`calculate_overall_score` never returns `None`, so every completed session's
resolved score is kept, zeros included. `now` models `timezone.now()`;
a month is the code's `timedelta(days=30)` = 2592000 seconds. -/
def update_teacher_stats (db : DB) (st : TeacherStats) (now : ℤ) : TeacherStats :=
  let tid := st.teacher
  let monthAgo := now - 2592000
  let activeMappings := db.mappings.filter (fun m => m.teacher == tid && m.is_active)
  let interviews := teacherSessions db tid
  let recentStudents := (interviews.filter
    (fun (s : Session) => decide (monthAgo ≤ s.created_at))).map (fun s => s.student)
  let st1 := { st with
    total_students := activeMappings.length,
    active_students := recentStudents.dedup.length,
    total_interviews_conducted := interviews.length,
    interviews_this_month :=
      (interviews.filter (fun (s : Session) => decide (monthAgo ≤ s.created_at))).length }
  let completedList := interviews.filter (fun s => s.status == Status.completed)
  let avgScores := completedList.map calculate_overall_score
  let st2 := if completedList.length ≠ 0 then
      (if avgScores.length ≠ 0 then
        { st1 with average_student_score := avgScores.sum / (avgScores.length : ℚ) }
       else { st1 with average_student_score := 0 })
    else st1
  let st3 := match (sortDescBy (fun s => s.created_at) interviews).head? with
    | some last => { st2 with last_activity_date := some last.created_at }
    | none => st2
  { st3 with updated_at := now }

/-- `StudentProgress.objects.filter(student=student).first()` /
the lookup side of `get_or_create`. -/
def findProgress (db : DB) (sid : ℕ) : Option StudentProgress :=
  db.progress.find? (fun p => p.student == sid)

/-- Persist a progress row: replace the student's existing row or append a
new one (the 1:1 upsert semantics of `get_or_create` + `save`). -/
def upsertProgress (db : DB) (p : StudentProgress) : DB :=
  if db.progress.any (fun q => q.student == p.student) then
    { db with progress := db.progress.map (fun q => if q.student == p.student then p else q) }
  else { db with progress := db.progress ++ [p] }

/-- `DashboardAnalyticsService.get_student_dashboard` (dashboard/services.py),
restricted to its `StudentProgress` handling: `get_or_create` the row, then
recompute via `_update_student_progress` when the row was just created or
`calculated_at` is more than 1 hour (3600 s) old; the returned row is the one
whose fields populate the response payload, paired with the resulting stored
state. `none` models the call raising (`User.DoesNotExist` when the student
id is absent, or the `ZeroDivisionError` path of the recompute). -/
def get_student_dashboard (db : DB) (sid : ℕ) (now : ℤ) :
    Option (StudentProgress × DB) :=
  if db.users.contains sid then
    match findProgress db sid with
    | none =>
      let p0 := defaultStudentProgress sid now
      let db0 := upsertProgress db p0
      match update_student_progress db0 p0 now with
      | none => none
      | some p1 => some (p1, upsertProgress db0 p1)
    | some p =>
      if p.calculated_at < now - 3600 then
        match update_student_progress db p now with
        | none => none
        | some p1 => some (p1, upsertProgress db p1)
      else some (p, db)
  else none

/-- Outcome of the `progress.save()` persistence write inside the signal
handlers' `transaction.atomic()` block, as decided by the storage layer:
success, a foreign-key/referential-integrity violation, or any other
database error. -/
inductive SaveOutcome where
  | ok
  | fkError
  | otherError
deriving DecidableEq, Repr

/-- What a handler run printed: nothing (silent skip or silent FK swallow),
the success message, or the `❌ Error ...` message printed for a non-FK
failure before the handler returns normally. -/
inductive HandlerLog where
  | silent
  | updated
  | errorLogged
deriving DecidableEq, Repr

/-- An exception escaping a Python function (used as the error type of the
handlers, which are modelled in `Except` so that propagation — or its
absence — is expressible). -/
inductive PyError where
  | fkViolation
  | generic
deriving DecidableEq, Repr

/-- `is_cascade_delete_scenario` (signals.py): true when the thread-local
cascade flag is set, the student reference is missing/invalid, the current
transaction needs rollback, or the user row no longer exists on a fresh
re-read (`User.objects.get(pk=...)` raising `DoesNotExist`). -/
def is_cascade_delete_scenario (db : DB) (student : Option ℕ) : Bool :=
  db.cascadeFlag || student.isNone || db.needsRollback ||
    (match student with
     | some sid => ! db.users.contains sid
     | none => true)

/-- Shared body of the three progress-recompute signal handlers (signals.py):
early-return when the student reference is missing, when
`is_cascade_delete_scenario` holds, or when the user row is absent; otherwise
fetch-or-create the progress row, recompute it, and persist. A
`ZeroDivisionError` inside the recompute, or a non-FK save failure, is
re-raised into the handler's outer `except`, which prints the error and
returns normally; an FK save failure is swallowed silently with the
transaction rolled back. The handler therefore never lets an exception
escape: every path is `Except.ok`. -/
def progress_recompute_on_event (db : DB) (student? : Option ℕ)
    (save : SaveOutcome) (now : ℤ) : Except PyError (DB × HandlerLog) :=
  match student? with
  | none => .ok (db, .silent)
  | some sid =>
    if is_cascade_delete_scenario db (some sid) then .ok (db, .silent)
    else if ! db.users.contains sid then .ok (db, .silent)
    else
      let p := (findProgress db sid).getD (defaultStudentProgress sid now)
      match update_student_progress db p now with
      | none => .ok (db, .errorLogged)
      | some p1 =>
        match save with
        | .ok => .ok (upsertProgress db p1, .updated)
        | .fkError => .ok (db, .silent)
        | .otherError => .ok (db, .errorLogged)

/-- `update_progress_after_session_delete` (post_delete on InterviewSession):
`student?` models `instance.student` (`none` when the attribute is missing
or null). -/
def update_progress_after_session_delete (db : DB) (student? : Option ℕ)
    (save : SaveOutcome) (now : ℤ) : Except PyError (DB × HandlerLog) :=
  progress_recompute_on_event db student? save now

/-- `update_progress_after_feedback_save` (post_save on InterviewFeedback):
`student?` models `instance.session.student` (`none` when either link is
missing or null). -/
def update_progress_after_feedback_save (db : DB) (student? : Option ℕ)
    (save : SaveOutcome) (now : ℤ) : Except PyError (DB × HandlerLog) :=
  progress_recompute_on_event db student? save now

/-- `update_progress_after_feedback_delete` (post_delete on
InterviewFeedback): `student?` models `instance.session.student`. -/
def update_progress_after_feedback_delete (db : DB) (student? : Option ℕ)
    (save : SaveOutcome) (now : ℤ) : Except PyError (DB × HandlerLog) :=
  progress_recompute_on_event db student? save now

/-- `InterviewSessionViewSet.report_security_event` (interviews/views.py),
its session mutation: bump `tab_switches`/`warning_count` for the matching
event types, append to the `security_violations` log, then invalidate —
`is_session_valid = False` and `status = 'cancelled'` — when
`tab_switches > tab_limit or warning_count > warning_limit` with limits
read from `security_config` (defaults 3 and 5). Returns the saved session
and the `session_invalidated` flag of the response. -/
def report_security_event (s : Session) (ev : EventType) (now : ℤ) :
    Session × Bool :=
  let s1 := if ev = EventType.tab_switch then { s with tab_switches := s.tab_switches + 1 }
            else if ev = EventType.warning then { s with warning_count := s.warning_count + 1 }
            else s
  let s2 := { s1 with security_violations := s1.security_violations ++ [⟨ev, now⟩] }
  let tabLimit := s.tab_switch_limit.getD 3
  let warningLimit := s.warning_limit.getD 5
  if tabLimit < s2.tab_switches ∨ warningLimit < s2.warning_count then
    ({ s2 with is_session_valid := false, status := Status.cancelled }, true)
  else (s2, false)

/-- `_check_security_violations` (professional_views.py): a violation holds
when the metadata event log (already including the current event) has ≥ 3
tab switches, ≥ 5 window blurs, ≥ 1 dev-tools event, or the current event is
a copy or paste attempt. -/
def check_security_violations (s : Session) (ev : EventType) : Bool :=
  let events := s.security_metadata_events
  let tabs := (events.filter (fun e => e.etype == EventType.tab_switch)).length
  let blurs := (events.filter (fun e => e.etype == EventType.window_blur)).length
  let devs := (events.filter (fun e => e.etype == EventType.dev_tools)).length
  decide (3 ≤ tabs) || decide (5 ≤ blurs) || decide (1 ≤ devs)
    || ev == EventType.copy_attempt || ev == EventType.paste_attempt

/-- `security_event` (professional_views.py): append the event to
`security_metadata['events']`, check violations, and on a violation set
`status = 'terminated'` and `end_datetime = now` (without touching
`is_session_valid` and without recording a termination reason). Returns the
saved session and the `violation_detected` flag. -/
def security_event (s : Session) (ev : EventType) (now : ℤ) : Session × Bool :=
  let s1 := { s with security_metadata_events := s.security_metadata_events ++ [⟨ev, now⟩] }
  let violation := check_security_violations s1 ev
  if violation then ({ s1 with status := Status.terminated, end_datetime := now }, true)
  else (s1, false)

/-- Fold a sequence of `(event, time)` reports through
`report_security_event`, keeping the saved session each time (the client
posting several events to the endpoint one after another). -/
def reportEvents (s : Session) : List (EventType × ℤ) → Session
  | [] => s
  | (ev, t) :: rest => reportEvents (report_security_event s ev t).1 rest

/-- Default `TeacherStats` row from the `get_or_create` defaults (zeros). -/
def defaultTeacherStats (tid : ℕ) : TeacherStats where
  teacher := tid
  total_students := 0
  active_students := 0
  total_interviews_conducted := 0
  interviews_this_month := 0
  average_student_score := 0
  feedback_completion_rate := 0
  student_improvement_rate := 0
  last_activity_date := none
  updated_at := 0

/-- Six completed sessions of student 1 with feedback overall scores
`[60,62,61,90,92,91]` ordered oldest→newest (completion times 1..6) — the
spec's trend example. -/
def sixScoreDb : DB :=
  dbWith [completedWithScore 1 60, completedWithScore 2 62, completedWithScore 3 61,
          completedWithScore 4 90, completedWithScore 5 92, completedWithScore 6 91] []

lemma answered_map_eq (qs : List Question) :
    (qs.filter (fun q => q.response.isSome)).map (fun q =>
        (q.response.map (fun r => r.score.getD 0)).getD 0)
      = (qs.filterMap (fun q => q.response)).map (fun r => r.score.getD 0) := by
  induction qs with
  | nil => rfl
  | cons q qs ih =>
    cases hr : q.response with
    | none => simpa [List.filter_cons, List.filterMap_cons, hr] using ih
    | some r => simpa [List.filter_cons, List.filterMap_cons, hr] using ih

lemma answered_length_eq (qs : List Question) :
    (qs.filter (fun q => q.response.isSome)).length
      = (qs.filterMap (fun q => q.response)).length := by
  have h := congrArg List.length (answered_map_eq qs)
  simpa using h

/-- Claim C1: for every session, `calculate_overall_score` returns the
feedback's overall score when feedback is attached; otherwise `0` when no
question has a response; otherwise the two-decimal-rounded mean of the
responses' scores (null counted as 0) with the number of answered questions
as denominator — i.e. the source function agrees with the spec's score
resolution rule on every session. -/
theorem C1_calculate_overall_score_matches_spec (s : Session) :
    calculate_overall_score s = resolve_spec s := by
  unfold calculate_overall_score resolve_spec
  cases hfb : s.feedback with
  | some fb => rfl
  | none =>
    simp only
    rw [answered_map_eq, answered_length_eq]
    by_cases h : (s.questions.filterMap (fun q => q.response)).length = 0
    · simp [h, List.length_eq_zero.mp h]
    · have hne : (s.questions.filterMap (fun q => q.response)) ≠ [] := by
        intro hnil; exact h (by simp [hnil])
      simp [h, hne]

lemma roundHalfEven_bounds (q : ℚ) :
    ⌊q⌋ ≤ roundHalfEven q ∧ roundHalfEven q ≤ ⌈q⌉ := by
  unfold roundHalfEven
  have hfc : ⌊q⌋ ≤ ⌈q⌉ := Int.floor_le_ceil q
  by_cases h1 : q - (⌊q⌋ : ℚ) < 1/2
  · rw [if_pos h1]
    exact ⟨le_refl _, hfc⟩
  · have hq : (⌊q⌋ : ℚ) < q := by
      have := not_lt.mp h1
      linarith
    have hceil : ⌊q⌋ + 1 ≤ ⌈q⌉ := Int.add_one_le_iff.mpr (Int.lt_ceil.mpr hq)
    rw [if_neg h1]
    by_cases h2 : 1/2 < q - (⌊q⌋ : ℚ)
    · rw [if_pos h2]
      exact ⟨by omega, hceil⟩
    · rw [if_neg h2]
      by_cases h3 : ⌊q⌋ % 2 = 0
      · rw [if_pos h3]
        exact ⟨le_refl _, hfc⟩
      · rw [if_neg h3]
        exact ⟨by omega, hceil⟩

lemma pythonRound2_bounds {q : ℚ} (h1 : 0 ≤ q) (h2 : q ≤ 100) :
    0 ≤ pythonRound2 q ∧ pythonRound2 q ≤ 100 := by
  have hb := roundHalfEven_bounds (q * 100)
  have hfl : (0 : ℤ) ≤ ⌊q * 100⌋ := Int.floor_nonneg.mpr (by positivity)
  have hcl : ⌈q * 100⌉ ≤ (10000 : ℤ) := Int.ceil_le.mpr (by push_cast; linarith)
  have hlow : (0 : ℤ) ≤ roundHalfEven (q * 100) := le_trans hfl hb.1
  have hhigh : roundHalfEven (q * 100) ≤ 10000 := le_trans hb.2 hcl
  unfold pythonRound2
  constructor
  · apply div_nonneg _ (by norm_num : (0:ℚ) ≤ 100)
    exact_mod_cast hlow
  · rw [div_le_iff₀ (by norm_num : (0:ℚ) < 100)]
    have h10 : ((roundHalfEven (q * 100) : ℚ)) ≤ 10000 := by exact_mod_cast hhigh
    linarith

lemma list_sum_bounds (l : List ℤ) (h : ∀ x ∈ l, 0 ≤ x ∧ x ≤ 100) :
    0 ≤ l.sum ∧ l.sum ≤ 100 * l.length := by
  induction l with
  | nil => simp
  | cons a l ih =>
    have ha := h a (by simp)
    have hl := ih (fun x hx => h x (by simp [hx]))
    simp only [List.sum_cons, List.length_cons]
    constructor
    · linarith [ha.1, hl.1]
    · push_cast
      linarith [ha.2, hl.2]

/-- Claim C9 counterexample: a session whose attached feedback stores
`overall_score = 150` resolves to `150`, which is outside `[0,100]` — the
code performs no clamping, so the claimed range does not hold regardless of
the stored integer values. -/
theorem C9_counterexample :
    calculate_overall_score { baseSession with feedback := some (fbOnly 150) } = 150
      ∧ ¬ ((150 : ℚ) ≤ 100) := by
  constructor
  · rfl
  · norm_num

/-- Claim C9 (amended): `calculate_overall_score` returns a value in `[0,100]`
provided every stored score is itself in `[0,100]` — the feedback's
`overall_score` when feedback is attached, and every non-null response score
otherwise. The code performs no clamping, so the claimed bound fails for
out-of-range stored integers (see the counterexample); on range-respecting
stored data it holds on both resolution paths. -/
theorem C9_resolve_in_range (s : Session)
    (hfb : ∀ fb, s.feedback = some fb → 0 ≤ fb.overall_score ∧ fb.overall_score ≤ 100)
    (hresp : ∀ q ∈ s.questions, ∀ r, q.response = some r →
        ∀ sc, r.score = some sc → 0 ≤ sc ∧ sc ≤ 100) :
    0 ≤ calculate_overall_score s ∧ calculate_overall_score s ≤ 100 := by
  unfold calculate_overall_score
  cases hf : s.feedback with
  | some fb =>
    have hb := hfb fb hf
    dsimp only
    refine ⟨?_, ?_⟩
    · exact_mod_cast hb.1
    · exact_mod_cast hb.2
  | none =>
    dsimp only
    set answered := s.questions.filter (fun q => q.response.isSome) with hansw
    by_cases hlen : answered.length = 0
    · simp [hlen]
    · rw [if_neg hlen]
      set vals := answered.map (fun q => (q.response.map (fun r => r.score.getD 0)).getD 0)
        with hvals
      have hbounds : ∀ x ∈ vals, 0 ≤ x ∧ x ≤ 100 := by
        intro x hx
        rw [hvals] at hx
        obtain ⟨q, hq, hqx⟩ := List.mem_map.mp hx
        have hqmem : q ∈ s.questions := List.mem_of_mem_filter hq
        cases hr : q.response with
        | none =>
          rw [hr] at hqx
          simp at hqx
          omega
        | some r =>
          cases hsc : r.score with
          | none =>
            rw [hr] at hqx
            simp [hsc] at hqx
            omega
          | some sc =>
            have hb := hresp q hqmem r hr sc hsc
            rw [hr] at hqx
            simp [hsc] at hqx
            omega
      have hsum := list_sum_bounds vals hbounds
      have hvlen : vals.length = answered.length := by
        rw [hvals]
        simp
      have hnpos : 0 < (answered.length : ℚ) := by
        have hp : 0 < answered.length := Nat.pos_of_ne_zero hlen
        exact_mod_cast hp
      have hmean_lo : (0 : ℚ) ≤ (vals.sum : ℚ) / (answered.length : ℚ) := by
        apply div_nonneg _ (le_of_lt hnpos)
        exact_mod_cast hsum.1
      have hmean_hi : (vals.sum : ℚ) / (answered.length : ℚ) ≤ 100 := by
        rw [div_le_iff₀ hnpos]
        have h2 : (vals.sum : ℚ) ≤ 100 * (vals.length : ℚ) := by exact_mod_cast hsum.2
        rw [hvlen] at h2
        linarith
      exact pythonRound2_bounds hmean_lo hmean_hi

/-- Witness for `C9_resolve_in_range`: a concrete session with an attached
feedback scoring 80 satisfies the range hypotheses, and the theorem places the
resolved score in `[0,100]`. -/
theorem C9_resolve_in_range_witness :
    0 ≤ calculate_overall_score { baseSession with feedback := some (fbOnly 80) }
      ∧ calculate_overall_score { baseSession with feedback := some (fbOnly 80) } ≤ 100 :=
  C9_resolve_in_range _
    (by
      intro fb hfb
      cases hfb
      constructor <;> norm_num [fbOnly])
    (by
      intro q hq
      simp [baseSession] at hq)

lemma length_insertDescBy {α : Type} (key : α → ℤ) (x : α) (l : List α) :
    (insertDescBy key x l).length = l.length + 1 := by
  induction l with
  | nil => rfl
  | cons y ys ih =>
    unfold insertDescBy
    by_cases h : key y ≤ key x
    · simp [h]
    · simp [h, ih]

lemma length_sortDescBy {α : Type} (key : α → ℤ) (l : List α) :
    (sortDescBy key l).length = l.length := by
  induction l with
  | nil => rfl
  | cons x xs ih => simp [sortDescBy, length_insertDescBy, ih]

/-- Claim C4 counterexample: a student with one `scheduled` session (so zero
completed sessions) and a previously stored `streak_days = 7` gets
`totalInterviews = 1` and `streakDays = 7` from the recompute — not every
numeric field is reset to 0 as the claim states. -/
theorem C4_counterexample :
    (update_student_progress
        (dbWith [{ baseSession with status := .scheduled }] [])
        { defaultStudentProgress 1 0 with streak_days := 7 } 100).map
        (fun r => (r.total_interviews, r.streak_days)) = some (1, 7)
      ∧ ((1 : ℕ) ≠ 0 ∧ (7 : ℤ) ≠ 0) := by
  refine ⟨?_, by decide, by decide⟩
  rfl

/-- Claim C4 (amended): for a student with no completed session, the recompute
resets the score fields (`averageScore`, the three skill averages,
`improvementPercentage`) to 0, sets `scoreTrend = stable` and
`lastInterviewDate = null`, and sets `completedInterviews = 0`; but
`totalInterviews` is set to the count of all the student's sessions (which
need not be 0), and `streakDays` is left at its previously stored value. -/
theorem C4_no_completed_reset (db : DB) (p : StudentProgress) (now : ℤ)
    (h : completedSessionsOf db p.student = []) :
    update_student_progress db p now =
      some { p with total_interviews := (studentSessions db p.student).length,
                    completed_interviews := 0,
                    average_score := 0, technical_average := 0,
                    communication_average := 0, aptitude_average := 0,
                    score_trend := .stable, improvement_percentage := 0,
                    last_interview_date := none, calculated_at := now } := by
  unfold update_student_progress
  have hlen : ((studentSessions db p.student).filter
      (fun s => s.status == Status.completed)).length = 0 := by
    have : (studentSessions db p.student).filter (fun s => s.status == Status.completed)
        = completedSessionsOf db p.student := rfl
    rw [this, h]
    rfl
  simp [hlen]

/-- Witness for `C4_no_completed_reset`: a student with a single scheduled
session and no completed session. -/
theorem C4_no_completed_reset_witness :
    update_student_progress
        (dbWith [{ baseSession with status := .scheduled }] [])
        (defaultStudentProgress 1 0) 100 =
      some { defaultStudentProgress 1 0 with
               total_interviews := (studentSessions
                 (dbWith [{ baseSession with status := .scheduled }] []) 1).length,
               completed_interviews := 0,
               average_score := 0, technical_average := 0,
               communication_average := 0, aptitude_average := 0,
               score_trend := .stable, improvement_percentage := 0,
               last_interview_date := none, calculated_at := 100 } :=
  C4_no_completed_reset _ _ _ (by decide)

lemma recentFeedbackScores_nil {db : DB} {sid : ℕ}
    (h : studentFeedbacks db sid = []) : recentFeedbackScores db sid = [] := by
  unfold recentFeedbackScores
  rw [h]
  rfl

lemma completed_ne_of_feedbacks_ne {db : DB} {sid : ℕ}
    (h : studentFeedbacks db sid ≠ []) : completedSessionsOf db sid ≠ [] := by
  intro hc
  apply h
  unfold studentFeedbacks
  rw [hc]
  rfl

lemma feedbacks_ne_of_six {db : DB} {sid : ℕ}
    (h : 6 ≤ (recentFeedbackScores db sid).length) : studentFeedbacks db sid ≠ [] := by
  intro hf
  rw [recentFeedbackScores_nil hf] at h
  simp at h

/-- Claim C10: when a student has at least one completed session but no
feedback row on any completed session, the recompute updates only the
interview counts and the last-interview date: `totalInterviews` becomes the
session count, `completedInterviews` the completed count,
`lastInterviewDate` the most recent completion time, while `averageScore`,
the three skill averages, `scoreTrend`, `improvementPercentage` and
`streakDays` all keep their previously stored values (the record-update
below mentions exactly the changed fields; `calculated_at` is the `auto_now`
save timestamp). -/
theorem C10_no_feedback_partial_update (db : DB) (p : StudentProgress) (now : ℤ)
    (hc : completedSessionsOf db p.student ≠ [])
    (hf : studentFeedbacks db p.student = []) :
    ∃ last, (sortDescBy (fun s => s.completed_at.getD 0)
               (completedSessionsOf db p.student)).head? = some last ∧
      update_student_progress db p now =
        some { p with total_interviews := (studentSessions db p.student).length,
                      completed_interviews := (completedSessionsOf db p.student).length,
                      last_interview_date := last.completed_at,
                      calculated_at := now } := by
  have hsortne : sortDescBy (fun s => s.completed_at.getD 0)
      (completedSessionsOf db p.student) ≠ [] := by
    intro hnil
    apply hc
    have := length_sortDescBy (fun s => s.completed_at.getD 0)
      (completedSessionsOf db p.student)
    rw [hnil] at this
    exact List.length_eq_zero.mp this.symm
  obtain ⟨last, rest, hcons⟩ := List.exists_cons_of_ne_nil hsortne
  refine ⟨last, by rw [hcons]; rfl, ?_⟩
  unfold update_student_progress
  have hfilt : (studentSessions db p.student).filter (fun s => s.status == Status.completed)
      = completedSessionsOf db p.student := rfl
  have hlen : ((studentSessions db p.student).filter
      (fun s => s.status == Status.completed)).length ≠ 0 := by
    rw [hfilt]
    intro h0
    exact hc (List.length_eq_zero.mp h0)
  have hfblen : (studentFeedbacks db p.student).length = 0 := by rw [hf]; rfl
  have hrecent : (recentFeedbackScores db p.student).length = 0 := by
    rw [recentFeedbackScores_nil hf]
    rfl
  simp only [hfilt, hlen, hfblen, hrecent, hcons, if_neg, ite_false, if_false]
  norm_num
  intro hcontra
  exact absurd hcontra hc

/-- Witness for `C10_no_feedback_partial_update`: one completed session with
no feedback; the previously stored averages and trend survive. -/
theorem C10_no_feedback_partial_update_witness :
    ∃ last, (sortDescBy (fun s => s.completed_at.getD 0)
               (completedSessionsOf (dbWith [baseSession] []) 1)).head? = some last ∧
      update_student_progress (dbWith [baseSession] [])
          { defaultStudentProgress 1 0 with average_score := 42, score_trend := .improving } 7 =
        some { { defaultStudentProgress 1 0 with average_score := 42, score_trend := .improving } with
                 total_interviews := (studentSessions (dbWith [baseSession] []) 1).length,
                 completed_interviews := (completedSessionsOf (dbWith [baseSession] []) 1).length,
                 last_interview_date := last.completed_at,
                 calculated_at := 7 } :=
  C10_no_feedback_partial_update (dbWith [baseSession] [])
    { defaultStudentProgress 1 0 with average_score := 42, score_trend := .improving } 7
    (by decide) (by decide)

/-- Claim C5 counterexample: with only one completed-and-reviewed session
(fewer than 6 feedback rows) and previously stored trend `improving` with
`improvementPercentage = 50`, the recompute leaves both fields at their
stored values — it does not set `scoreTrend = stable` and
`improvementPercentage = 0` as the claim states. -/
theorem C5_counterexample :
    (update_student_progress (dbWith [completedWithScore 3600 50] [])
        { defaultStudentProgress 1 0 with
            score_trend := .improving, improvement_percentage := 50 } 0).map
        (fun r => (r.score_trend, r.improvement_percentage))
      = some (Trend.improving, 50)
    ∧ some (Trend.improving, (50 : ℚ)) ≠ some (Trend.stable, (0 : ℚ)) := by
  constructor
  · norm_num [update_student_progress, studentSessions, completedSessionsOf,
      studentFeedbacks, recentFeedbackScores, sortDescBy, insertDescBy, avgOrZero,
      skillAvg, dbWith, completedWithScore, baseSession, fbOnly, defaultStudentProgress]
    simp
  · simp

/-- Claim C5 (amended): the trend uses the six most recent feedback overall
scores ordered by session completion time descending. When fewer than six
exist (and the student still has a completed session), `scoreTrend` and
`improvementPercentage` keep their previously stored values rather than being
reset to stable/0. With at least six scores and a non-zero `previousAvg`,
the trend is `improving` iff `recentAvg > previousAvg × 1.05`, `declining`
iff `recentAvg < previousAvg × 0.95`, else `stable`, with
`improvementPercentage = (recentAvg − previousAvg)/previousAvg × 100` in the
non-stable cases and 0 in the stable case; the spec's example
`[60,62,61,90,92,91]` then yields `improving` with `3000/61 ≈ 49.18`. -/
theorem C5_trend (db : DB) (p : StudentProgress) (now : ℤ) :
    (completedSessionsOf db p.student ≠ [] →
      (recentFeedbackScores db p.student).length < 6 →
      (update_student_progress db p now).map
          (fun r => (r.score_trend, r.improvement_percentage))
        = some (p.score_trend, p.improvement_percentage))
    ∧ (6 ≤ (recentFeedbackScores db p.student).length →
      previousAvgOf db p.student ≠ 0 →
      (update_student_progress db p now).map
          (fun r => (r.score_trend, r.improvement_percentage))
        = some (
            if previousAvgOf db p.student * (105/100) < recentAvgOf db p.student then
              (Trend.improving, (recentAvgOf db p.student - previousAvgOf db p.student)
                / previousAvgOf db p.student * 100)
            else if recentAvgOf db p.student < previousAvgOf db p.student * (95/100) then
              (Trend.declining, (recentAvgOf db p.student - previousAvgOf db p.student)
                / previousAvgOf db p.student * 100)
            else (Trend.stable, 0))) := by
  constructor
  · intro hc hlt
    have hlen : ¬ ((studentSessions db p.student).filter
        (fun s => s.status == Status.completed)).length = 0 := by
      intro h0
      exact hc (List.length_eq_zero.mp h0)
    have h6 : ¬ (6 ≤ (recentFeedbackScores db p.student).length) := not_le.mpr hlt
    simp only [update_student_progress, hlen, h6, if_false, ite_false, ne_eq,
      not_false_eq_true, if_true, ite_true]
    cases hh : (sortDescBy (fun s => s.completed_at.getD 0)
        ((studentSessions db p.student).filter (fun s => s.status == Status.completed))).head? with
    | none => simp [hh, apply_ite]
    | some last => simp [hh, apply_ite]
  · intro h6 hprev
    have hfbne := feedbacks_ne_of_six h6
    have hc := completed_ne_of_feedbacks_ne hfbne
    have hlen : ¬ ((studentSessions db p.student).filter
        (fun s => s.status == Status.completed)).length = 0 := by
      intro h0
      exact hc (List.length_eq_zero.mp h0)
    simp only [update_student_progress, hlen, h6, if_false, ite_false, ne_eq,
      not_false_eq_true, if_true, ite_true]
    by_cases hA : previousAvgOf db p.student * (105/100) < recentAvgOf db p.student
    · simp [hA, hprev, apply_ite]
    · by_cases hB : recentAvgOf db p.student < previousAvgOf db p.student * (95/100)
      · simp [hA, hB, hprev, apply_ite]
      · simp [hA, hB, apply_ite]

/-- Witness for `C5_trend`: on the spec's six-score example the trend comes
out `improving` with improvement percentage `3000/61 ≈ 49.18`. -/
theorem C5_trend_witness :
    (update_student_progress sixScoreDb (defaultStudentProgress 1 0) 0).map
        (fun r => (r.score_trend, r.improvement_percentage))
      = some (Trend.improving, 3000/61) := by
  have hscores : recentFeedbackScores sixScoreDb 1 = [91, 92, 90, 61, 62, 60] := by
    norm_num [recentFeedbackScores, studentFeedbacks, completedSessionsOf,
      studentSessions, sortDescBy, insertDescBy, sixScoreDb, dbWith,
      completedWithScore, baseSession, fbOnly]
  have hprev : previousAvgOf sixScoreDb 1 = 61 := by
    norm_num [previousAvgOf, hscores]
  have hrec : recentAvgOf sixScoreDb 1 = 91 := by
    norm_num [recentAvgOf, hscores]
  have h := (C5_trend sixScoreDb (defaultStudentProgress 1 0) 0).2
    (by norm_num [defaultStudentProgress, hscores]) (by norm_num [defaultStudentProgress, hprev])
  rw [h]
  norm_num [defaultStudentProgress, hprev, hrec]

/-- Claim C6 counterexample: a teacher with two completed sessions resolving
to 0 (no feedback, no responses) and 80 (feedback) gets
`averageStudentScore = 40` — the resolved 0 is counted in both the sum and
the denominator, whereas the claim's non-positive-excluding mean would be
80. -/
theorem C6_counterexample :
    (update_teacher_stats
        (dbWith [baseSession, { baseSession with feedback := some (fbOnly 80) }] [])
        (defaultTeacherStats 2) 0).average_student_score = 40
    ∧ ((40 : ℚ) ≠ 80) := by
  constructor
  · norm_num [update_teacher_stats, teacherSessions, sortDescBy, insertDescBy,
      calculate_overall_score, dbWith, baseSession, fbOnly, defaultTeacherStats]
  · norm_num

/-- Claim C6 (amended): for a teacher with at least one completed session,
`_update_teacher_stats` sets `averageStudentScore` to the mean of
`calculate_overall_score` over ALL the teacher's completed sessions — the
code only filters out `None` scores, which never occur, so resolved scores
of 0 (or any non-positive value) count as data points and the denominator is
the number of completed sessions. -/
theorem C6_average_over_all_completed (db : DB) (st : TeacherStats) (now : ℤ)
    (h : completedTeacherSessions db st.teacher ≠ []) :
    (update_teacher_stats db st now).average_student_score
      = ((completedTeacherSessions db st.teacher).map calculate_overall_score).sum
        / (((completedTeacherSessions db st.teacher).map calculate_overall_score).length : ℚ) := by
  have hlen : ¬ ((teacherSessions db st.teacher).filter
      (fun s => s.status == Status.completed)).length = 0 := by
    intro h0
    exact h (List.length_eq_zero.mp h0)
  have hmap : ¬ (((teacherSessions db st.teacher).filter
      (fun s => s.status == Status.completed)).map calculate_overall_score).length = 0 := by
    simpa using hlen
  simp only [update_teacher_stats, completedTeacherSessions, hlen, hmap, ne_eq,
    not_false_eq_true, if_true, ite_true]
  cases hh : (sortDescBy (fun s => s.created_at) (teacherSessions db st.teacher)).head? with
  | none => simp [hh]
  | some last => simp [hh]

/-- Witness for `C6_average_over_all_completed`: one completed session with
feedback score 80. -/
theorem C6_average_over_all_completed_witness :
    (update_teacher_stats (dbWith [{ baseSession with feedback := some (fbOnly 80) }] [])
        (defaultTeacherStats 2) 0).average_student_score
      = ((completedTeacherSessions
            (dbWith [{ baseSession with feedback := some (fbOnly 80) }] []) 2).map
          calculate_overall_score).sum
        / (((completedTeacherSessions
            (dbWith [{ baseSession with feedback := some (fbOnly 80) }] []) 2).map
          calculate_overall_score).length : ℚ) :=
  C6_average_over_all_completed
    (dbWith [{ baseSession with feedback := some (fbOnly 80) }] [])
    (defaultTeacherStats 2) 0 (by decide)

/-- Claim C8 counterexample: with a stored `StudentProgress` row reading
`averageScore = 10` whose `calculated_at` is more than an hour old, and one
completed-and-reviewed session scoring 80, the student-dashboard read
recomputes: it returns 80 (not the persisted 10) and overwrites the stored
row (now reading 80) — the read path does trigger the aggregator. -/
theorem C8_counterexample :
    ((get_student_dashboard
        (dbWith [{ baseSession with feedback := some (fbOnly 80) }]
          [{ defaultStudentProgress 1 0 with average_score := 10 }]) 1 7200).map
      (fun r => (r.1.average_score, r.2.progress.map (fun p => p.average_score))))
      = some (80, [80])
    ∧ (dbWith [{ baseSession with feedback := some (fbOnly 80) }]
        [{ defaultStudentProgress 1 0 with average_score := 10 }]).progress.map
        (fun p => p.average_score) = [10]
    ∧ ((80 : ℚ) ≠ 10) := by
  refine ⟨?_, by norm_num [dbWith], by norm_num⟩
  norm_num [get_student_dashboard, findProgress, upsertProgress, update_student_progress,
    studentSessions, completedSessionsOf, studentFeedbacks, recentFeedbackScores,
    sortDescBy, insertDescBy, avgOrZero, skillAvg, dbWith, baseSession, fbOnly,
    defaultStudentProgress]
  simp

/-- Claim C8 (amended): the student-dashboard read is a lazy read: it creates
the `StudentProgress` row when absent and triggers the aggregator when the
row was just created or its `calculated_at` is more than one hour old; only
when an existing row is fresh does it return the persisted snapshot and
leave the stored state entirely unchanged — which this theorem proves for
the fresh case. -/
theorem C8_fresh_read_is_pure (db : DB) (sid : ℕ) (now : ℤ) (p : StudentProgress)
    (hu : db.users.contains sid = true)
    (hp : findProgress db sid = some p)
    (hfresh : ¬ (p.calculated_at < now - 3600)) :
    get_student_dashboard db sid now = some (p, db) := by
  have hu' : sid ∈ db.users := by simpa using hu
  simp [get_student_dashboard, hu', hp, hfresh]

/-- Witness for `C8_fresh_read_is_pure`: a fresh row (calculated now) is
returned as-is with the store untouched. -/
theorem C8_fresh_read_is_pure_witness :
    get_student_dashboard (dbWith [] [defaultStudentProgress 1 5000]) 1 5000
      = some (defaultStudentProgress 1 5000, dbWith [] [defaultStudentProgress 1 5000]) :=
  C8_fresh_read_is_pure (dbWith [] [defaultStudentProgress 1 5000]) 1 5000
    (defaultStudentProgress 1 5000) (by decide) (by decide) (by decide)

/-- Claim C3: whenever the owning student fails the liveness check — the
cascade-delete flag is set, or the student row is gone on a fresh re-read —
each of the three progress-recompute handlers (session delete, feedback
save, feedback delete) returns normally with the store byte-identical
(no `StudentProgress` row created or modified) and prints nothing: the run
is skipped silently. -/
theorem C3_dead_owner_skipped_silently (db : DB) (sid : ℕ) (save : SaveOutcome) (now : ℤ)
    (h : db.cascadeFlag = true ∨ db.users.contains sid = false) :
    update_progress_after_session_delete db (some sid) save now
        = Except.ok (db, HandlerLog.silent)
    ∧ update_progress_after_feedback_save db (some sid) save now
        = Except.ok (db, HandlerLog.silent)
    ∧ update_progress_after_feedback_delete db (some sid) save now
        = Except.ok (db, HandlerLog.silent) := by
  have hc : is_cascade_delete_scenario db (some sid) = true := by
    rcases h with h | h
    · simp [is_cascade_delete_scenario, h]
    · have hmem : sid ∉ db.users := by simpa using h
      simp [is_cascade_delete_scenario, hmem]
  refine ⟨?_, ?_, ?_⟩ <;>
    simp [update_progress_after_session_delete, update_progress_after_feedback_save,
      update_progress_after_feedback_delete, progress_recompute_on_event, hc]

/-- Witness for `C3_dead_owner_skipped_silently`: the cascade flag is set,
so all three handlers skip silently. -/
theorem C3_dead_owner_skipped_silently_witness :
    update_progress_after_session_delete { dbWith [] [] with cascadeFlag := true }
        (some 1) SaveOutcome.ok 0 = Except.ok ({ dbWith [] [] with cascadeFlag := true },
        HandlerLog.silent)
    ∧ update_progress_after_feedback_save { dbWith [] [] with cascadeFlag := true }
        (some 1) SaveOutcome.ok 0 = Except.ok ({ dbWith [] [] with cascadeFlag := true },
        HandlerLog.silent)
    ∧ update_progress_after_feedback_delete { dbWith [] [] with cascadeFlag := true }
        (some 1) SaveOutcome.ok 0 = Except.ok ({ dbWith [] [] with cascadeFlag := true },
        HandlerLog.silent) :=
  C3_dead_owner_skipped_silently { dbWith [] [] with cascadeFlag := true } 1
    SaveOutcome.ok 0 (Or.inl rfl)

/-- Claim C7 counterexample: a persistence failure that is NOT a foreign-key
violation does not propagate out of the feedback-save handler: the handler
returns normally (`Except.ok`) after printing the error, with the store
unchanged — there is no input on which it returns `Except.error`. (The
handler's outer `except` catches every exception, prints the non-FK ones,
and falls through to `pass`.) -/
theorem C7_counterexample :
    update_progress_after_feedback_save (dbWith [] [defaultStudentProgress 1 0]) (some 1)
        SaveOutcome.otherError 0
      = Except.ok (dbWith [] [defaultStudentProgress 1 0], HandlerLog.errorLogged)
    ∧ ∀ e, update_progress_after_feedback_save (dbWith [] [defaultStudentProgress 1 0]) (some 1)
        SaveOutcome.otherError 0 ≠ Except.error e := by
  have h1 : update_progress_after_feedback_save (dbWith [] [defaultStudentProgress 1 0]) (some 1)
      SaveOutcome.otherError 0
      = Except.ok (dbWith [] [defaultStudentProgress 1 0], HandlerLog.errorLogged) := by
    rfl
  refine ⟨h1, fun e he => ?_⟩
  rw [h1] at he
  exact Except.noConfusion he

/-- Claim C7 (amended): when the handler reaches the persistence write and
the write fails, a foreign-key violation is swallowed silently while any
other failure is printed to the console — but in both cases the handler
returns normally with the stored state unchanged; no write failure
propagates to the caller of the triggering mutation. -/
theorem C7_write_failure_swallowed (db : DB) (sid : ℕ) (now : ℤ) (p1 : StudentProgress)
    (hlive : is_cascade_delete_scenario db (some sid) = false)
    (hupd : update_student_progress db
        ((findProgress db sid).getD (defaultStudentProgress sid now)) now = some p1) :
    update_progress_after_feedback_save db (some sid) SaveOutcome.fkError now
        = Except.ok (db, HandlerLog.silent)
    ∧ update_progress_after_feedback_save db (some sid) SaveOutcome.otherError now
        = Except.ok (db, HandlerLog.errorLogged)
    ∧ update_progress_after_session_delete db (some sid) SaveOutcome.fkError now
        = Except.ok (db, HandlerLog.silent)
    ∧ update_progress_after_session_delete db (some sid) SaveOutcome.otherError now
        = Except.ok (db, HandlerLog.errorLogged)
    ∧ update_progress_after_feedback_delete db (some sid) SaveOutcome.fkError now
        = Except.ok (db, HandlerLog.silent)
    ∧ update_progress_after_feedback_delete db (some sid) SaveOutcome.otherError now
        = Except.ok (db, HandlerLog.errorLogged) := by
  have hmem : sid ∈ db.users := by
    cases hx : db.users.contains sid with
    | false =>
      exfalso
      unfold is_cascade_delete_scenario at hlive
      simp at hlive
      exact (by simpa using hx : sid ∉ db.users) hlive.2
    | true => simpa using hx
  refine ⟨?_, ?_, ?_, ?_, ?_, ?_⟩ <;>
    simp [update_progress_after_feedback_save, update_progress_after_session_delete,
      update_progress_after_feedback_delete, progress_recompute_on_event, hlive,
      hmem, hupd]

/-- Witness for `C7_write_failure_swallowed`: a live student whose recompute
succeeds; the FK failure is silent and the generic failure is logged, both
without touching the stored row and without raising. -/
theorem C7_write_failure_swallowed_witness :
    update_progress_after_feedback_save (dbWith [] [defaultStudentProgress 1 0]) (some 1)
        SaveOutcome.fkError 0 = Except.ok (dbWith [] [defaultStudentProgress 1 0],
        HandlerLog.silent)
    ∧ update_progress_after_feedback_save (dbWith [] [defaultStudentProgress 1 0]) (some 1)
        SaveOutcome.otherError 0 = Except.ok (dbWith [] [defaultStudentProgress 1 0],
        HandlerLog.errorLogged)
    ∧ update_progress_after_session_delete (dbWith [] [defaultStudentProgress 1 0]) (some 1)
        SaveOutcome.fkError 0 = Except.ok (dbWith [] [defaultStudentProgress 1 0],
        HandlerLog.silent)
    ∧ update_progress_after_session_delete (dbWith [] [defaultStudentProgress 1 0]) (some 1)
        SaveOutcome.otherError 0 = Except.ok (dbWith [] [defaultStudentProgress 1 0],
        HandlerLog.errorLogged)
    ∧ update_progress_after_feedback_delete (dbWith [] [defaultStudentProgress 1 0]) (some 1)
        SaveOutcome.fkError 0 = Except.ok (dbWith [] [defaultStudentProgress 1 0],
        HandlerLog.silent)
    ∧ update_progress_after_feedback_delete (dbWith [] [defaultStudentProgress 1 0]) (some 1)
        SaveOutcome.otherError 0 = Except.ok (dbWith [] [defaultStudentProgress 1 0],
        HandlerLog.errorLogged) :=
  C7_write_failure_swallowed (dbWith [] [defaultStudentProgress 1 0]) 1 0
    (defaultStudentProgress 1 0) (by decide) (by decide)

/-- Claim C2 counterexample: recording a 4th `tab_switch` through
`report_security_event` on an `inProgress` session with the default
thresholds leaves the session with `status = 'cancelled'` — not
`'terminated'` — and `end_datetime` unchanged (no `endAt = now` stamp and no
termination reason is recorded); only `is_session_valid` is set to false. -/
theorem C2_counterexample :
    (reportEvents { baseSession with status := Status.in_progress }
        [(EventType.tab_switch, 1), (EventType.tab_switch, 2),
         (EventType.tab_switch, 3), (EventType.tab_switch, 4)]).status = Status.cancelled
    ∧ Status.cancelled ≠ Status.terminated
    ∧ (reportEvents { baseSession with status := Status.in_progress }
        [(EventType.tab_switch, 1), (EventType.tab_switch, 2),
         (EventType.tab_switch, 3), (EventType.tab_switch, 4)]).is_session_valid = false
    ∧ (reportEvents { baseSession with status := Status.in_progress }
        [(EventType.tab_switch, 1), (EventType.tab_switch, 2),
         (EventType.tab_switch, 3), (EventType.tab_switch, 4)]).end_datetime
      = baseSession.end_datetime := by
  refine ⟨?_, by decide, ?_, ?_⟩ <;> decide

/-- Claim C2 (amended): on an `inProgress` session with clean counters and
default thresholds, `report_security_event` does not invalidate on the 3rd
`tab_switch`; the 4th (`tab_switches > 3`) sets `is_session_valid = false`
and `status = 'cancelled'` (not `'terminated'`), leaving `endAt` unchanged
and recording no termination reason; a 5th event changes neither status nor
validity again (the invalidation is absorbing) but still increments the
counter and appends to the violation log. The professional `security_event`
endpoint is the one that terminates (`status = 'terminated'`,
`endAt = now`), but it fires on the 3rd tab switch (threshold `>= 3`), never
touches `isSessionValid`, and re-stamps `endAt` on every later event rather
than acting exactly once. -/
theorem C2_security_event_behaviour (s : Session) (t1 t2 t3 t4 t5 : ℤ)
    (hst : s.status = Status.in_progress)
    (htab : s.tab_switches = 0) (hwarn : s.warning_count = 0)
    (hlim : s.tab_switch_limit = none) (hwlim : s.warning_limit = none)
    (hmeta : s.security_metadata_events = []) :
    ((reportEvents s [(EventType.tab_switch, t1), (EventType.tab_switch, t2),
        (EventType.tab_switch, t3)]).status = Status.in_progress
      ∧ (reportEvents s [(EventType.tab_switch, t1), (EventType.tab_switch, t2),
          (EventType.tab_switch, t3)]).is_session_valid = s.is_session_valid)
    ∧ ((reportEvents s [(EventType.tab_switch, t1), (EventType.tab_switch, t2),
          (EventType.tab_switch, t3), (EventType.tab_switch, t4)]).status = Status.cancelled
      ∧ (reportEvents s [(EventType.tab_switch, t1), (EventType.tab_switch, t2),
          (EventType.tab_switch, t3), (EventType.tab_switch, t4)]).is_session_valid = false
      ∧ (reportEvents s [(EventType.tab_switch, t1), (EventType.tab_switch, t2),
          (EventType.tab_switch, t3), (EventType.tab_switch, t4)]).end_datetime
        = s.end_datetime)
    ∧ ((reportEvents s [(EventType.tab_switch, t1), (EventType.tab_switch, t2),
          (EventType.tab_switch, t3), (EventType.tab_switch, t4),
          (EventType.tab_switch, t5)]).status = Status.cancelled
      ∧ (reportEvents s [(EventType.tab_switch, t1), (EventType.tab_switch, t2),
          (EventType.tab_switch, t3), (EventType.tab_switch, t4),
          (EventType.tab_switch, t5)]).is_session_valid = false
      ∧ (reportEvents s [(EventType.tab_switch, t1), (EventType.tab_switch, t2),
          (EventType.tab_switch, t3), (EventType.tab_switch, t4),
          (EventType.tab_switch, t5)]).tab_switches = 5
      ∧ (reportEvents s [(EventType.tab_switch, t1), (EventType.tab_switch, t2),
          (EventType.tab_switch, t3), (EventType.tab_switch, t4),
          (EventType.tab_switch, t5)]).security_violations
        = s.security_violations ++ [⟨EventType.tab_switch, t1⟩, ⟨EventType.tab_switch, t2⟩,
            ⟨EventType.tab_switch, t3⟩, ⟨EventType.tab_switch, t4⟩,
            ⟨EventType.tab_switch, t5⟩])
    ∧ (((security_event (security_event (security_event s EventType.tab_switch t1).1
          EventType.tab_switch t2).1 EventType.tab_switch t3).1.status = Status.terminated
      ∧ (security_event (security_event (security_event s EventType.tab_switch t1).1
          EventType.tab_switch t2).1 EventType.tab_switch t3).1.end_datetime = t3)
      ∧ ((security_event (security_event (security_event (security_event s
            EventType.tab_switch t1).1 EventType.tab_switch t2).1
            EventType.tab_switch t3).1 EventType.tab_switch t4).1.end_datetime = t4
        ∧ (security_event (security_event (security_event (security_event s
            EventType.tab_switch t1).1 EventType.tab_switch t2).1
            EventType.tab_switch t3).1 EventType.tab_switch t4).1.is_session_valid
          = s.is_session_valid)) := by
  refine ⟨⟨?_, ?_⟩, ⟨?_, ?_, ?_⟩, ⟨?_, ?_, ?_, ?_⟩, ⟨⟨?_, ?_⟩, ?_, ?_⟩⟩ <;>
    simp [reportEvents, report_security_event, security_event,
      check_security_violations, hst, htab, hwarn, hlim, hwlim, hmeta]

/-- Witness for `C2_security_event_behaviour`: the concrete clean
`inProgress` session with events at times 1..5. -/
theorem C2_security_event_behaviour_witness :
    ((reportEvents { baseSession with status := Status.in_progress }
        [(EventType.tab_switch, 1), (EventType.tab_switch, 2),
         (EventType.tab_switch, 3)]).status = Status.in_progress
      ∧ (reportEvents { baseSession with status := Status.in_progress }
          [(EventType.tab_switch, 1), (EventType.tab_switch, 2),
           (EventType.tab_switch, 3)]).is_session_valid
        = ({ baseSession with status := Status.in_progress } : Session).is_session_valid)
    ∧ ((reportEvents { baseSession with status := Status.in_progress }
          [(EventType.tab_switch, 1), (EventType.tab_switch, 2),
           (EventType.tab_switch, 3), (EventType.tab_switch, 4)]).status = Status.cancelled
      ∧ (reportEvents { baseSession with status := Status.in_progress }
          [(EventType.tab_switch, 1), (EventType.tab_switch, 2),
           (EventType.tab_switch, 3), (EventType.tab_switch, 4)]).is_session_valid = false
      ∧ (reportEvents { baseSession with status := Status.in_progress }
          [(EventType.tab_switch, 1), (EventType.tab_switch, 2),
           (EventType.tab_switch, 3), (EventType.tab_switch, 4)]).end_datetime
        = ({ baseSession with status := Status.in_progress } : Session).end_datetime)
    ∧ ((reportEvents { baseSession with status := Status.in_progress }
          [(EventType.tab_switch, 1), (EventType.tab_switch, 2),
           (EventType.tab_switch, 3), (EventType.tab_switch, 4),
           (EventType.tab_switch, 5)]).status = Status.cancelled
      ∧ (reportEvents { baseSession with status := Status.in_progress }
          [(EventType.tab_switch, 1), (EventType.tab_switch, 2),
           (EventType.tab_switch, 3), (EventType.tab_switch, 4),
           (EventType.tab_switch, 5)]).is_session_valid = false
      ∧ (reportEvents { baseSession with status := Status.in_progress }
          [(EventType.tab_switch, 1), (EventType.tab_switch, 2),
           (EventType.tab_switch, 3), (EventType.tab_switch, 4),
           (EventType.tab_switch, 5)]).tab_switches = 5
      ∧ (reportEvents { baseSession with status := Status.in_progress }
          [(EventType.tab_switch, 1), (EventType.tab_switch, 2),
           (EventType.tab_switch, 3), (EventType.tab_switch, 4),
           (EventType.tab_switch, 5)]).security_violations
        = ({ baseSession with status := Status.in_progress } : Session).security_violations
            ++ [⟨EventType.tab_switch, 1⟩, ⟨EventType.tab_switch, 2⟩,
                ⟨EventType.tab_switch, 3⟩, ⟨EventType.tab_switch, 4⟩,
                ⟨EventType.tab_switch, 5⟩])
    ∧ (((security_event (security_event (security_event
            { baseSession with status := Status.in_progress } EventType.tab_switch 1).1
            EventType.tab_switch 2).1 EventType.tab_switch 3).1.status = Status.terminated
      ∧ (security_event (security_event (security_event
            { baseSession with status := Status.in_progress } EventType.tab_switch 1).1
            EventType.tab_switch 2).1 EventType.tab_switch 3).1.end_datetime = 3)
      ∧ ((security_event (security_event (security_event (security_event
            { baseSession with status := Status.in_progress } EventType.tab_switch 1).1
            EventType.tab_switch 2).1 EventType.tab_switch 3).1
            EventType.tab_switch 4).1.end_datetime = 4
        ∧ (security_event (security_event (security_event (security_event
            { baseSession with status := Status.in_progress } EventType.tab_switch 1).1
            EventType.tab_switch 2).1 EventType.tab_switch 3).1
            EventType.tab_switch 4).1.is_session_valid
          = ({ baseSession with status := Status.in_progress } : Session).is_session_valid)) :=
  C2_security_event_behaviour { baseSession with status := Status.in_progress } 1 2 3 4 5
    rfl rfl rfl rfl rfl rfl

end TalentLens
